import Mathlib

/-!
Verification of the owlbear routing core (`owlbear/router.py`).

The definitions below are a shallow embedding of the Python source:
  * `make_uri_parts`   embeds `_make_uri_parts`
  * `get_star_attrs`   embeds `_get_star_attrs` (with `matchParam` embedding the
    anchored regular expression `_URI_PARAMETER_RE`)
  * `RouteTree` and its operations embed the `RouteTree` class
  * `Router` and its operations embed the `Router` class
Python exceptions are modelled with `Except PyErr`; the mutable
`handler_args` dictionary of `get_handler_and_args` is modelled by explicit
state passing (`HMap`), with `LookupRes` carrying the Python return value.
Strings are handled with executable character-list helpers so that every
definition evaluates by kernel reduction.
-/

/-- The Python exception classes raised by the routing core, plus the built-in
errors (`ValueError`, `AssertionError`, `TypeError`, `KeyError`) that the code
can raise. -/
inductive PyErr : Type where
  | badRouteParameter
  | routeNotFound
  | parameterTypeError
  | conflictingRoutes
  | handlerNameNotFound
  | badHandlerParameters
  | valueError
  | assertionError
  | typeError
  | keyError
deriving DecidableEq, Repr

/-- A Python value as stored in the handler-args map: the result of converting
a path segment (an `int`, a `str`, or `None`). -/
inductive PyValue : Type where
  | pynone
  | int (n : Int)
  | str (s : String)
deriving DecidableEq, Repr

/-- A request handler: identified by its `__name__` and an identity tag (the
Python object identity). -/
structure Handler where
  name : String
  id : Nat
deriving DecidableEq, Repr

/-- A middleware value (opaque to the router; only its identity matters for
the chain structure). -/
structure Middleware where
  id : Nat
deriving DecidableEq, Repr

/-- The mutable `handler_args` dict: an insertion-ordered association list. -/
abbrev HMap := List (String × PyValue)

deriving instance DecidableEq for Except

-- ## Generic association-list operations (Python dict semantics)

/-- `d.get(key)`: first binding wins (keys are unique in a Python dict). -/
def alGet {α β : Type} [DecidableEq α] : List (α × β) → α → Option β
  | [], _ => none
  | (k, v) :: rest, key => if k = key then some v else alGet rest key

/-- `d[key] = v`: replace in place if present, else append (dict order). -/
def alSet {α β : Type} [DecidableEq α] : List (α × β) → α → β → List (α × β)
  | [], key, v => [(key, v)]
  | (k, w) :: rest, key, v =>
    if k = key then (key, v) :: rest else (k, w) :: alSet rest key v

-- ## Character and string helpers (ASCII model of the Python behaviour)

/-- The character `{` (kept out of string literals). -/
def lbrace : Char := Char.ofNat 123

/-- The character `}` (kept out of string literals). -/
def rbrace : Char := Char.ofNat 125

/-- ASCII model of `str.upper` on one character. -/
def pyUpperChar (c : Char) : Char :=
  if 'a' ≤ c ∧ c ≤ 'z' then Char.ofNat (c.toNat - 32) else c

/-- ASCII model of `str.upper`. -/
def pyUpper (s : String) : String := String.mk (s.toList.map pyUpperChar)

/-- `s.strip(c)`: remove every leading and trailing occurrence of `c`. -/
def pyStripChar (c : Char) (s : String) : String :=
  String.mk (((s.toList.dropWhile (· = c)).reverse.dropWhile (· = c)).reverse)

/-- `s.rstrip(c)`: remove every trailing occurrence of `c`. -/
def pyRstripChar (c : Char) (s : String) : String :=
  String.mk ((s.toList.reverse.dropWhile (· = c)).reverse)

/-- Worker for `strSplitChar`: `acc` holds the current (reversed) segment. -/
def splitCharAux (c : Char) : List Char → List Char → List String
  | [], acc => [String.mk acc.reverse]
  | x :: xs, acc =>
    if x = c then String.mk acc.reverse :: splitCharAux c xs []
    else splitCharAux c xs (x :: acc)

/-- `s.split(c)` for a one-character separator (Python semantics:
`"".split("/") = [""]`, empty segments preserved). -/
def strSplitChar (c : Char) (s : String) : List String :=
  splitCharAux c s.toList []

/-- `s.startswith("/")`. -/
def startsWithSlash (s : String) : Bool :=
  match s.toList with
  | '/' :: _ => true
  | _ => false

/-- `s.endswith("/*")`. -/
def endsWithSlashStar (s : String) : Bool :=
  match s.toList.reverse with
  | '*' :: '/' :: _ => true
  | _ => false

/-- `s.rsplit("/", 1)[0]`: everything before the last `/`, or `s` itself when
there is no `/`. -/
def rsplitBeforeSlash (s : String) : String :=
  let l := s.toList
  if l.contains '/' then
    String.mk (((l.reverse.dropWhile (· ≠ '/')).drop 1).reverse)
  else s

/-- ASCII whitespace, as matched by `\s` in the route-parameter regex. -/
def isPySpace (c : Char) : Bool :=
  c = ' ' ∨ c = '\t' ∨ c = '\n' ∨ c = '\r' ∨ c = Char.ofNat 11 ∨ c = Char.ofNat 12

/-- `s.strip()` (whitespace strip, used on the matched parameter name). -/
def pyStripWs (s : String) : String :=
  String.mk (((s.toList.dropWhile isPySpace).reverse.dropWhile isPySpace).reverse)

def isAsciiDigit (c : Char) : Bool := '0' ≤ c ∧ c ≤ '9'

/-- Tail of a Python integer literal: digits with single interior underscores. -/
def pyDigitTail : List Char → Bool
  | [] => true
  | '_' :: c :: rest => isAsciiDigit c && pyDigitTail rest
  | '_' :: [] => false
  | c :: rest => isAsciiDigit c && pyDigitTail rest

/-- A nonempty digit group as accepted by `int(...)` after the sign. -/
def pyDigits (cs : List Char) : Bool :=
  match cs with
  | [] => false
  | c :: rest => isAsciiDigit c && pyDigitTail rest

/-- Numeric value of a digit group (underscores skipped). -/
def digitsVal (cs : List Char) : Nat :=
  cs.foldl (fun a c => if c = '_' then a else a * 10 + (c.toNat - 48)) 0

/-- ASCII model of Python `int(s)`: optional surrounding whitespace, optional
sign, then a digit group; `none` models the `ValueError` on bad input. -/
def pyIntParse (s : String) : Option Int :=
  let cs := ((s.toList.dropWhile isPySpace).reverse.dropWhile isPySpace).reverse
  match cs with
  | '+' :: rest => if pyDigits rest then some (Int.ofNat (digitsVal rest)) else none
  | '-' :: rest => if pyDigits rest then some (-(Int.ofNat (digitsVal rest))) else none
  | rest => if pyDigits rest then some (Int.ofNat (digitsVal rest)) else none

/-- Python `str(v)` for the values that can appear in the args map. -/
def pyValueStr : PyValue → String
  | PyValue.pynone => "None"
  | PyValue.int n => toString n
  | PyValue.str s => s

-- ## Path tokenization and the parameter grammar

/-- Embeds `_make_uri_parts`: strip `/` from both ends; when the remainder is
nonempty, put a single `/` back in front; split on `/`. -/
def make_uri_parts (path : String) : List String :=
  let p := pyStripChar '/' path
  let p2 := if p ≠ "" then "/" ++ p else p
  strSplitChar '/' p2

/-- Embeds the anchored regex `_URI_PARAMETER_RE`
(`^<([a-zA-Z_][a-zA-Z0-9_]*)?(?::\s*([^>]*))?>$`): `none` means no match,
otherwise the pair of the optional capture groups. -/
def matchParam (key : String) : Option (Option String × Option String) :=
  match key.toList with
  | '<' :: rest =>
    if rest ≠ [] ∧ rest.getLastD ' ' = '>' ∧ ¬ rest.dropLast.contains '>' then
      matchParamMid rest.dropLast
    else none
  | _ => none
where
  isIdentStart (c : Char) : Bool :=
    ('a' ≤ c ∧ c ≤ 'z') ∨ ('A' ≤ c ∧ c ≤ 'Z') ∨ c = '_'
  isIdentChar (c : Char) : Bool := isIdentStart c ∨ isAsciiDigit c
  /- group 1 is a greedy identifier; group 2 follows a `:` with leading
     whitespace consumed by `\s*`. -/
  matchParamMid (mid : List Char) : Option (Option String × Option String) :=
    let nameLen :=
      match mid with
      | c :: _ => if isIdentStart c then (mid.takeWhile isIdentChar).length else 0
      | [] => 0
    let name := mid.take nameLen
    let g1 : Option String := if name.isEmpty then none else some (String.mk name)
    match mid.drop nameLen with
    | [] => some (g1, none)
    | ':' :: after => some (g1, some (String.mk (after.dropWhile isPySpace)))
    | _ => none

/-- Embeds `_get_star_attrs`: returns `(star_name, star_type)` plus the
updated `parent_parameter_names` list (the Python code mutates it in place). -/
def get_star_attrs (key : String) (ppn : List String) :
    Except PyErr (Option String × Option String × List String) :=
  match matchParam key with
  | none => Except.ok (none, none, ppn)
  | some (g1, g2) =>
    let star_name := pyStripWs ((g1).getD "")
    if star_name = "" then Except.error PyErr.badRouteParameter
    else if star_name ∈ ppn then Except.error PyErr.badRouteParameter
    else
      let star_type_name := match g2 with
        | none => "str"
        | some s => if s = "" then "str" else s
      if star_type_name ≠ "int" ∧ star_type_name ≠ "str" then
        Except.error PyErr.badRouteParameter
      else Except.ok (some star_name, some star_type_name, ppn ++ [star_name])

-- ## The route tree

/-- Embeds the `RouteTree` class: `pfx` is the `prefix` attribute, `children`
the insertion-ordered child dict, `methods` the verb dict, and
`star_name`/`star_type` the parameter metadata. -/
inductive RouteTree : Type where
  | node (pfx : String) (children : List (String × RouteTree))
      (methods : List (String × Handler))
      (star_name : Option String) (star_type : Option String)

def RouteTree.pfx : RouteTree → String
  | node p _ _ _ _ => p

def RouteTree.children : RouteTree → List (String × RouteTree)
  | node _ c _ _ _ => c

def RouteTree.methods : RouteTree → List (String × Handler)
  | node _ _ m _ _ => m

def RouteTree.star_name : RouteTree → Option String
  | node _ _ _ sn _ => sn

def RouteTree.star_type : RouteTree → Option String
  | node _ _ _ _ st => st

def RouteTree.withMethods : RouteTree → List (String × Handler) → RouteTree
  | node p c _ sn st, m => node p c m sn st

def RouteTree.withChildren : RouteTree → List (String × RouteTree) → RouteTree
  | node p _ m sn st, c => node p c m sn st

/-- Embeds `RouteTree.__init__`: the two `assert` statements make construction
fail with an `AssertionError` when the parameter metadata disagrees with the
`prefix.endswith("/*")` test. -/
def mkRouteTree (p : String) (star_name star_type : Option String) :
    Except PyErr RouteTree :=
  if endsWithSlashStar p then
    if star_name.isNone then Except.error PyErr.assertionError
    else if star_type.isNone then Except.error PyErr.assertionError
    else Except.ok (RouteTree.node p [] [] star_name star_type)
  else
    if star_name.isSome then Except.error PyErr.assertionError
    else if star_type.isSome then Except.error PyErr.assertionError
    else Except.ok (RouteTree.node p [] [] star_name star_type)

/-- Embeds `RouteTree._add_child`. -/
def add_child (t : RouteTree) (key : String)
    (star_name star_type : Option String) : Except PyErr RouteTree :=
  match mkRouteTree (pyRstripChar '/' t.pfx ++ "/" ++ key) star_name star_type with
  | Except.error e => Except.error e
  | Except.ok child => Except.ok (t.withChildren (alSet t.children key child))

/-- Embeds the `if key not in self.children: self._add_child(...)` step of
`RouteTree.add_handler`. -/
def ensure_child (t : RouteTree) (key : String)
    (star_name star_type : Option String) : Except PyErr RouteTree :=
  match alGet t.children key with
  | some _ => Except.ok t
  | none => add_child t key star_name star_type

-- ## Handler insertion (`RouteTree.add_handler`)

/-- The reverse-index updates returned by `add_handler`:
`(handler.__name__, METHOD) -> (url template, required parameter names)`.
The Python value is a dict of `(str, set)` pairs; the set is modelled as a
duplicate-free list. -/
abbrev Updates := List ((String × String) × (String × List String))

/-- `dict.update` / `dict[k] = v` on an `Updates` value. -/
def updSet (u : Updates) (k : String × String) (v : String × List String) :
    Updates := alSet u k v

/-- `updates.update(other)`: fold the right dict into the left one. -/
def updMerge (u other : Updates) : Updates :=
  other.foldl (fun acc kv => updSet acc kv.1 kv.2) u

/-- `set.add`: insert a name into a required-parameter set. -/
def insertReq (req : List String) (n : String) : List String :=
  if n ∈ req then req else req ++ [n]

/-- The `for method in methods` loop at the end of the recursion in
`RouteTree.add_handler`: upper-case each verb, fail with `ConflictingRoutes`
when a handler is already registered for it, otherwise record the handler and
the reverse-index seed of an empty template string and an empty set. -/
def add_methods (h : Handler) : List (String × Handler) → List String →
    Updates → Except PyErr (List (String × Handler) × Updates)
  | tm, [], upd => Except.ok (tm, upd)
  | tm, m :: rest, upd =>
    let mu := pyUpper m
    match alGet tm mu with
    | some _ => Except.error PyErr.conflictingRoutes
    | none => add_methods h (alSet tm mu h) rest (updSet upd (h.name, mu) ("", []))

/-- The bottom-up rewrite of one reverse-index entry while the recursion in
`add_handler` unwinds: a parameter contributes a placeholder and its name, a
literal segment contributes its text (`elif key or not path`). -/
def unwind_update (star_name : Option String) (key : String) :
    (String × String) × (String × List String) →
    (String × String) × (String × List String)
  | (k, (path, req)) =>
    match star_name with
    | some n =>
      (k, ("/" ++ String.mk [lbrace] ++ n ++ String.mk [rbrace] ++ path,
           insertReq req n))
    | none =>
      if key ≠ "" ∨ path = "" then (k, ("/" ++ key ++ path, req))
      else (k, (path, req))

/-- Embeds `RouteTree.add_handler`. The returned tree is the updated node (the
Python code mutates `self` in place); exceptions abort the registration. -/
def add_handler (t : RouteTree) (uri_parts : List String) (h : Handler)
    (methods : List String) (ppn : List String) (allow_stars : Bool) :
    Except PyErr (RouteTree × Updates) :=
  if methods = [] then Except.error PyErr.valueError
  else
    match uri_parts with
    | [] =>
      match add_methods h t.methods methods [] with
      | Except.error e => Except.error e
      | Except.ok (tm, upd) => Except.ok (t.withMethods tm, upd)
    | key :: rest =>
      match get_star_attrs key ppn with
      | Except.error e => Except.error e
      | Except.ok (star_name, star_type, ppn2) =>
        if star_name.isSome ∧ allow_stars = false then
          Except.error PyErr.badRouteParameter
        else
          let key2 := if star_name.isSome then "*" else key
          match ensure_child t key2 star_name star_type with
          | Except.error e => Except.error e
          | Except.ok t1 =>
            match alGet t1.children key2 with
            | none => Except.error PyErr.keyError
            | some child =>
              if star_name ≠ child.star_name then
                Except.error PyErr.badRouteParameter
              else if star_type ≠ child.star_type then
                Except.error PyErr.badRouteParameter
              else
                match add_handler child rest h methods ppn2 allow_stars with
                | Except.error e => Except.error e
                | Except.ok (child2, upd) =>
                  Except.ok (t1.withChildren (alSet t1.children key2 child2),
                             upd.map (unwind_update star_name key2))

-- ## Lookup (`RouteTree.get_handler_and_args`)

/-- The outcome of `get_handler_and_args`: either the returned pair
`(methodHandlers.get(VERB), handler_args)` — the handler may be absent — or a
raised exception. -/
inductive LookupRes : Type where
  | found (h : Option Handler) (args : HMap)
  | error (e : PyErr)
deriving DecidableEq, Repr

/-- Embeds `_parse_last_uri_part`: convert one segment with the bound kind
of the node.  A conversion failure raises `ParameterTypeError`; an unknown kind would
escape as a `KeyError` (unreachable through the public API). -/
def parse_last_uri_part (t : RouteTree) (last_part : String) :
    Except PyErr (Option String × PyValue) :=
  match t.star_type with
  | none => Except.ok (none, PyValue.pynone)
  | some "str" => Except.ok (t.star_name, PyValue.str last_part)
  | some "int" =>
    match pyIntParse last_part with
    | some n => Except.ok (t.star_name, PyValue.int n)
    | none => Except.error PyErr.parameterTypeError
  | some _ => Except.error PyErr.keyError

/-- Models `try: return <recursive call> except RouteNotFound: pass`: a
`RouteNotFound` outcome falls through to the next branch (carrying the state
of the shared args dict), every other outcome returns. -/
def fall_on_nf : HMap × LookupRes → HMap ⊕ (HMap × LookupRes)
  | (a, LookupRes.error PyErr.routeNotFound) => Sum.inl a
  | (a, r) => Sum.inr (a, r)

/-- The `if not uri_parts` base case of `get_handler_and_args`:
`return self.methods.get(method.upper()), handler_args`.  It is also the whole
behaviour of the `__static__` fallback call, which passes an empty parts list.
The first component is the state of the dict passed in, the `LookupRes` is the
Python return value. -/
def geths_nil (t : RouteTree) (method : String) (args : HMap) :
    HMap × LookupRes :=
  (args, LookupRes.found (alGet t.methods (pyUpper method)) args)

/-- Embeds `RouteTree.get_handler_and_args`.  The first component of the
result is the final state of the mutable `handler_args` dict (bindings are
never removed, even when a branch fails); the second is the returned value or
the raised exception.  Branch order is the order of the Python statements:
matching literal child first, then the `*` child, then `__static__`, then
`raise RouteNotFound`. -/
def geths (t : RouteTree) : List String → String → HMap → HMap × LookupRes
  | [], method, args => geths_nil t method args
  | key :: rest, method, args =>
    let s1 : HMap ⊕ (HMap × LookupRes) :=
      match alGet t.children key with
      | none => Sum.inl args
      | some child => fall_on_nf (geths child rest (pyUpper method) args)
    match s1 with
    | Sum.inr done => done
    | Sum.inl args1 =>
      let s2 : HMap ⊕ (HMap × LookupRes) :=
        match alGet t.children "*" with
        | none => Sum.inl args1
        | some starChild =>
          match parse_last_uri_part starChild key with
          | Except.error e => Sum.inr (args1, LookupRes.error e)
          | Except.ok (param_name, param_val) =>
            let args2 := match param_name with
              | some n => alSet args1 n param_val
              | none => args1
            fall_on_nf (geths starChild rest method args2)
      match s2 with
      | Sum.inr done => done
      | Sum.inl args3 =>
        match alGet t.children "__static__" with
        | some stChild =>
          -- the call passes an empty parts list, the GET verb and a fresh dict:
          -- a fresh dict, and with an empty parts list the call always
          -- returns (the surrounding `except RouteNotFound` is dead code).
          (args3, (geths_nil stChild "GET" []).2)
        | none => (args3, LookupRes.error PyErr.routeNotFound)

-- ## Enumeration, prefix rewriting and merge (used by `attach`)

mutual

/-- Embeds `RouteTree.reset_prefix`: rewrite the stored path of every node for a
mount under the new base — except that a node whose own stored path is the
empty string (the root of the tree of a router) keeps it. -/
def reset_pfx : RouteTree → String → RouteTree
  | RouteTree.node p ch ms sn st, newp =>
    let p2 := if p ≠ "" then pyRstripChar '/' newp else p
    RouteTree.node p2 (reset_pfx_children ch newp) ms sn st

/-- The `for key, rtree in self.children.items()` loop of `reset_prefix`. -/
def reset_pfx_children :
    List (String × RouteTree) → String → List (String × RouteTree)
  | [], _ => []
  | (key, c) :: rest, newp =>
    (key, reset_pfx c (pyRstripChar '/' (newp ++ "/" ++ key))) ::
      reset_pfx_children rest newp

end

/-- Python `str(x)` on an `Optional[str]` (an unset name prints as `None`). -/
def optPyStr : Option String → String
  | some s => s
  | none => "None"

mutual

/-- Embeds `RouteTree.list_handlers`: depth-first enumeration of
`(full path, verb, handler)`; a `*` node renders as `<name: kind>` so the
emitted path can be re-parsed by `add_handler`. -/
def list_handlers (t : RouteTree) (pfxArg : Option String) :
    List (String × String × Handler) :=
  match t with
  | RouteTree.node p ch ms sn st =>
    let pfx0 := match pfxArg with
      | some x => x
      | none => rsplitBeforeSlash p
    let key0 := (strSplitChar '/' p).getLastD ""
    let key := if key0 = "*" then
        "<" ++ optPyStr sn ++ ": " ++ optPyStr st ++ ">"
      else key0
    let full_key := pyRstripChar '/' pfx0 ++ "/" ++ key
    ms.map (fun mh => (full_key, mh.1, mh.2)) ++ list_handlers_children ch full_key

/-- The `for child in self.children.values()` loop of `list_handlers`. -/
def list_handlers_children :
    List (String × RouteTree) → String → List (String × String × Handler)
  | [], _ => []
  | (_, c) :: rest, fk => list_handlers c (some fk) ++ list_handlers_children rest fk

end

/-- The `for path, method, handler in other.list_handlers()` loop of
`RouteTree.merge_with`: re-insert every enumerated route and accumulate the
reverse-index updates. -/
def merge_go : RouteTree → List (String × String × Handler) → Updates →
    Except PyErr (RouteTree × Updates)
  | t, [], upd => Except.ok (t, upd)
  | t, (path, m, h) :: rest, upd =>
    match add_handler t (make_uri_parts path) h [m] [] true with
    | Except.error e => Except.error e
    | Except.ok (t2, u) => merge_go t2 rest (updMerge upd u)

/-- Embeds `RouteTree.merge_with`. -/
def merge_with (t other : RouteTree) : Except PyErr (RouteTree × Updates) :=
  merge_go t (list_handlers other none) []

-- ## The Router

/-- Embeds the `Router` class: the tree root, the middleware list in its
internal storage order, and the reverse index `handler_to_url`. -/
structure Router where
  tree : RouteTree
  middleware : List Middleware
  handler_to_url : Updates

/-- `Router.__init__`: an empty tree rooted at `RouteTree("")`. -/
def Router.empty : Router :=
  { tree := RouteTree.node "" [] [] none none, middleware := [], handler_to_url := [] }

/-- Embeds `Router.add_route`. -/
def Router.add_route (r : Router) (uri_path : String) (h : Handler)
    (methods : List String) : Except PyErr Router :=
  match add_handler r.tree (make_uri_parts uri_path) h methods [] true with
  | Except.error e => Except.error e
  | Except.ok (t, upd) =>
    Except.ok { r with tree := t, handler_to_url := updMerge r.handler_to_url upd }

/-- Embeds `Router.register_middleware`: `self.middleware.insert(0, middleware)`. -/
def Router.register_middleware (r : Router) (m : Middleware) : Router :=
  { r with middleware := m :: r.middleware }

/-- Sequential `register_middleware` calls, in registration order. -/
def Router.register_all (r : Router) (ms : List Middleware) : Router :=
  ms.foldl Router.register_middleware r

/-- Embeds `Router.attach`: normalize the base path, rewrite the stored
paths of the sub-tree, then merge it into the tree of this router. -/
def Router.attach (r : Router) (sub : Router) (base_path : String) :
    Except PyErr Router :=
  let bp := if startsWithSlash base_path then base_path else "/" ++ base_path
  let bp2 := if bp = "/" then "" else bp
  match merge_with r.tree (reset_pfx sub.tree bp2) with
  | Except.error e => Except.error e
  | Except.ok (t, upd) =>
    Except.ok { r with tree := t, handler_to_url := updMerge r.handler_to_url upd }

/-- Embeds `Router.handler_and_args_for`: tokenization plus tree lookup. The
returned pair is `(methodHandlers.get(VERB), handler_args)`; note that the
handler component may be `none`. -/
def Router.handler_and_args_for (r : Router) (uri_path : String)
    (method : String) : Except PyErr (Option Handler × HMap) :=
  match (geths r.tree (make_uri_parts uri_path) method []).2 with
  | LookupRes.found h args => Except.ok (h, args)
  | LookupRes.error e => Except.error e

/-- Embeds Python `path.format(**param_args)` on the URL templates built by
`add_handler` (plain text plus `{name}` placeholders): each placeholder is
replaced by `str` of the bound value; a placeholder missing from the args, an
unterminated placeholder or a stray closing brace make the call fail
(`KeyError` / `ValueError` in Python), modelled as `none`. -/
def pyFormat (args : HMap) (cs : List Char) : Option (List Char) :=
  match cs with
  | [] => some []
  | c :: rest =>
    if c = lbrace then pyFormatName args [] rest
    else if c = rbrace then none
    else (pyFormat args rest).map (c :: ·)
where
  /-- Scan the name inside a placeholder (`acc` is reversed). -/
  pyFormatName (args : HMap) (acc : List Char) :
      List Char → Option (List Char)
  | [] => none
  | c :: rest =>
    if c = rbrace then
      match alGet args (String.mk acc.reverse) with
      | some v => (pyFormat args rest).map ((pyValueStr v).toList ++ ·)
      | none => none
    else pyFormatName args (c :: acc) rest

/-- Embeds `Router.url_for`.  `missing`/`extra` are the two set differences;
the final `path.format(**param_args)` is `pyFormat`. -/
def Router.url_for (r : Router) (handler_name : String) (method : String)
    (param_args : HMap) : Except PyErr String :=
  let entry := (alGet r.handler_to_url (handler_name, method)).getD ("", [])
  let path := entry.1
  let req_params := entry.2
  if path = "" then Except.error PyErr.handlerNameNotFound
  else
    let keys := param_args.map Prod.fst
    let missing := req_params.filter (fun n => ¬ n ∈ keys)
    if req_params ≠ [] ∧ missing ≠ [] then Except.error PyErr.badHandlerParameters
    else
      let extra := keys.filter (fun n => ¬ n ∈ req_params)
      if extra ≠ [] then Except.error PyErr.badHandlerParameters
      else
        match pyFormat param_args path.toList with
        | some out => Except.ok (String.mk out)
        | none => Except.error PyErr.keyError

/-- The middleware chain built by `Router.dispatch`: the parameter-bound
handler (`functools.partial(_handler, **handler_args)`) is the innermost call
target, and every `functools.partial(middleware, next_handler=handler)` step
adds one wrapper. -/
inductive Chain : Type where
  | bound (h : Handler) (args : HMap)
  | wrap (m : Middleware) (next : Chain)
deriving DecidableEq, Repr

/-- The `for middleware in self.middleware` loop of `Router.dispatch`. -/
def build_chain (mws : List Middleware) (inner : Chain) : Chain :=
  mws.foldl (fun h m => Chain.wrap m h) inner

/-- Embeds the synchronous part of `Router.dispatch`: look up the handler and
args, bind the args (`functools.partial` on `None` raises `TypeError`), then
build the middleware chain that will be invoked. -/
def Router.dispatch_chain (r : Router) (path method : String) :
    Except PyErr Chain :=
  match r.handler_and_args_for path method with
  | Except.error e => Except.error e
  | Except.ok (none, _) => Except.error PyErr.typeError
  | Except.ok (some h, args) =>
    Except.ok (build_chain r.middleware (Chain.bound h args))

-- ## Call-sequence helpers for concrete scenarios

/-- Run an `add_route` after a possibly-failed earlier setup step
(exceptions propagate, as in a Python call sequence). -/
def tryAdd (r : Except PyErr Router) (path : String) (h : Handler)
    (methods : List String) : Except PyErr Router :=
  match r with
  | Except.error e => Except.error e
  | Except.ok r => r.add_route path h methods

/-- Run a `handler_and_args_for` lookup after a possibly-failed setup. -/
def tryLookup (r : Except PyErr Router) (path method : String) :
    Except PyErr (Option Handler × HMap) :=
  match r with
  | Except.error e => Except.error e
  | Except.ok r => r.handler_and_args_for path method

def hA : Handler := { name := "hA", id := 1 }
def hB : Handler := { name := "hB", id := 2 }


/-- Run a `dispatch` (its synchronous chain-building part) after a
possibly-failed setup. -/
def tryDispatch (r : Except PyErr Router) (path method : String) :
    Except PyErr Chain :=
  match r with
  | Except.error e => Except.error e
  | Except.ok r => r.dispatch_chain path method

/-- Run an `attach` after two possibly-failed setups. -/
def tryAttach (parent sub : Except PyErr Router) (base_path : String) :
    Except PyErr Router :=
  match parent, sub with
  | Except.error e, _ => Except.error e
  | _, Except.error e => Except.error e
  | Except.ok p, Except.ok s => p.attach s base_path

def mw1 : Middleware := { id := 1 }
def mw2 : Middleware := { id := 2 }
def mw3 : Middleware := { id := 3 }

/-- A router with the single route `GET /` -> `hA` (used as a concrete
dispatch target). -/
def rRoot : Router :=
  match Router.empty.add_route "/" hA ["GET"] with
  | Except.ok r => r
  | Except.error _ => Router.empty

/-- A router with the single route `GET /u/<a: int>/<b>` -> `hA` (used as a
concrete `url_for` target). -/
def rUrl : Router :=
  match Router.empty.add_route "/u/<a: int>/<b>" hA ["GET"] with
  | Except.ok r => r
  | Except.error _ => Router.empty

-- A small concrete tree for exercising the lookup fallback order:
-- the literal child `k` is a dead end for the path `k/z`, while the `*`
-- child (parameter `n`, kind `str`) leads to a `GET` handler under `z`.
def fbLeafK : RouteTree := RouteTree.node "/k" [] [] none none
def fbLeafZ : RouteTree := RouteTree.node "/*/z" [] [("GET", hA)] none none
def fbStar : RouteTree :=
  RouteTree.node "/*" [("z", fbLeafZ)] [] (some "n") (some "str")
def fbRoot : RouteTree :=
  RouteTree.node "" [("k", fbLeafK), ("*", fbStar)] [] none none

/-- A router with the single route `GET /x` -> `hA` (used as a concrete
conflicting-registration target). -/
def rConflict : Router :=
  match Router.empty.add_route "/x" hA ["GET"] with
  | Except.ok r => r
  | Except.error _ => Router.empty

-- ## Helper lemmas

theorem alGet_alSet_self {α β : Type} [DecidableEq α]
    (l : List (α × β)) (k : α) (v : β) : alGet (alSet l k v) k = some v := by
  induction l with
  | nil => simp [alGet, alSet]
  | cons hd tl ih =>
    obtain ⟨k', v'⟩ := hd
    by_cases h : k' = k
    · simp [alGet, alSet, h]
    · simp [alGet, alSet, h, ih]

@[simp] theorem RouteTree.pfx_node (p c m sn st) :
    (RouteTree.node p c m sn st).pfx = p := rfl

@[simp] theorem RouteTree.children_node (p c m sn st) :
    (RouteTree.node p c m sn st).children = c := rfl

@[simp] theorem RouteTree.methods_node (p c m sn st) :
    (RouteTree.node p c m sn st).methods = m := rfl

@[simp] theorem RouteTree.star_name_node (p c m sn st) :
    (RouteTree.node p c m sn st).star_name = sn := rfl

@[simp] theorem RouteTree.star_type_node (p c m sn st) :
    (RouteTree.node p c m sn st).star_type = st := rfl

@[simp] theorem RouteTree.methods_withMethods (t : RouteTree) (m) :
    (t.withMethods m).methods = m := by cases t; rfl

@[simp] theorem RouteTree.children_withMethods (t : RouteTree) (m) :
    (t.withMethods m).children = t.children := by cases t; rfl

@[simp] theorem RouteTree.star_name_withMethods (t : RouteTree) (m) :
    (t.withMethods m).star_name = t.star_name := by cases t; rfl

@[simp] theorem RouteTree.star_type_withMethods (t : RouteTree) (m) :
    (t.withMethods m).star_type = t.star_type := by cases t; rfl

@[simp] theorem RouteTree.methods_withChildren (t : RouteTree) (c) :
    (t.withChildren c).methods = t.methods := by cases t; rfl

@[simp] theorem RouteTree.children_withChildren (t : RouteTree) (c) :
    (t.withChildren c).children = c := by cases t; rfl

@[simp] theorem RouteTree.star_name_withChildren (t : RouteTree) (c) :
    (t.withChildren c).star_name = t.star_name := by cases t; rfl

@[simp] theorem RouteTree.star_type_withChildren (t : RouteTree) (c) :
    (t.withChildren c).star_type = t.star_type := by cases t; rfl

-- ## Claim theorems

/-- Claim C1: registering `"/test2/<a: int>/<b>/test/<c>"` for `GET` and
looking up `"/test2/13/foo/test/bar"` with verb `GET` returns the registered
handler together with the parameter map `{a: 13, b: "foo", c: "bar"}`, the
first value an integer and the other two strings. -/
theorem claim_C1 :
    tryLookup (tryAdd (Except.ok Router.empty) "/test2/<a: int>/<b>/test/<c>" hA ["GET"])
      "/test2/13/foo/test/bar" "GET"
    = Except.ok (some hA,
        [("a", PyValue.int 13), ("b", PyValue.str "foo"), ("c", PyValue.str "bar")]) := by
  decide

/-- Claim C10: a route whose literal segment is exactly `"*"` does not match
the parameter grammar, so the created child node keyed `"*"` carries no
parameter metadata and the assertion in the `RouteTree` constructor fails:
registration aborts with an `AssertionError`, not with `BadRouteParameter`. -/
theorem claim_C10 :
    get_star_attrs "*" [] = Except.ok (none, none, [])
    ∧ mkRouteTree "/*" none none = Except.error PyErr.assertionError
    ∧ Router.empty.add_route "/*" hA ["GET"] = Except.error PyErr.assertionError
    ∧ PyErr.assertionError ≠ PyErr.badRouteParameter := by
  refine ⟨by decide, rfl, rfl, by decide⟩

/-- Claim C3 (divergence witness): when the path reaches an existing node but
the verb has no handler there, the lookup does NOT fail with `RouteNotFound`
as it does for an unregistered path — it returns an absent handler, and
`dispatch` then raises a `TypeError` from `functools.partial(None, ...)`. -/
theorem claim_C3 :
    tryLookup (tryAdd (Except.ok Router.empty) "/" hA ["GET"]) "/" "POST"
      = Except.ok (none, [])
    ∧ tryDispatch (tryAdd (Except.ok Router.empty) "/" hA ["GET"]) "/" "POST"
      = Except.error PyErr.typeError
    ∧ tryLookup (tryAdd (Except.ok Router.empty) "/" hA ["GET"]) "/nosuch" "GET"
      = Except.error PyErr.routeNotFound := by
  refine ⟨by decide, by decide, by decide⟩

/-- Claim C4 (counterexample): the tokenizer does not return just the stripped
remainder split on `/` — it prepends an extra empty segment: `"/foo"`
tokenizes to `["", "foo"]`, not `["foo"]`. -/
theorem claim_C4_counterexample :
    make_uri_parts "/foo" = ["", "foo"] ∧ make_uri_parts "/foo" ≠ ["foo"] := by
  decide

theorem strSplitChar_slash_append (s : String) :
    strSplitChar '/' ("/" ++ s) = "" :: strSplitChar '/' s := by
  unfold strSplitChar
  have h : ("/" ++ s).toList = '/' :: s.toList := by
    show ("/" ++ s).data = '/' :: s.data
    rw [String.data_append]
    rfl
  rw [h]
  rfl

/-- Claim C4 (amended): the tokenizer strips leading and trailing `/`; if the
remainder is empty the result is `[""]`; otherwise the result is an empty
first segment followed by the stripped remainder split on `/`.  Either way
at least one segment is produced. -/
theorem claim_C4 (p : String) :
    make_uri_parts p =
      (if pyStripChar '/' p = "" then [""]
       else "" :: strSplitChar '/' (pyStripChar '/' p))
    ∧ make_uri_parts p ≠ [] := by
  have key : make_uri_parts p =
      (if pyStripChar '/' p = "" then [""]
       else "" :: strSplitChar '/' (pyStripChar '/' p)) := by
    unfold make_uri_parts
    by_cases h : pyStripChar '/' p = ""
    · rw [h]; decide
    · simp [h, strSplitChar_slash_append]
  refine ⟨key, ?_⟩
  rw [key]
  by_cases h : pyStripChar '/' p = "" <;> simp [h]

/-- Claim C9 (counterexample): with routes `"/a/<x>/b"` and `"/<y>/a/c"`
registered, looking up `"/a/q/c"` does not return the handler of the second
route at all — neither route matches and the lookup fails with `RouteNotFound`. -/
theorem claim_C9_counterexample :
    tryLookup (tryAdd (tryAdd (Except.ok Router.empty) "/a/<x>/b" hA ["GET"])
        "/<y>/a/c" hB ["GET"]) "/a/q/c" "GET"
    = Except.error PyErr.routeNotFound := by
  decide

/-- Claim C9 (amended): all branches of one lookup share one parameter map
and bindings are never removed on backtracking.  With routes `"/a/<x>/b"` and
`"/<y>/q/c"` registered, looking up `"/a/q/c"` first descends the literal
`a` branch binding `x = "q"`, fails with not-found, then succeeds through the
parameterized branch — and the returned map still contains the stale
binding `x = "q"` next to `y = "a"`. -/
theorem claim_C9 :
    tryLookup (tryAdd (tryAdd (Except.ok Router.empty) "/a/<x>/b" hA ["GET"])
        "/<y>/q/c" hB ["GET"]) "/a/q/c" "GET"
    = Except.ok (some hB, [("x", PyValue.str "q"), ("y", PyValue.str "a")]) := by
  decide

/-- Claim C2: lookup tries the matching literal child first and only a
`RouteNotFound` failure of that branch falls through to the `*` child, while
a `ParameterTypeError` propagates immediately; concretely, with only
`"/ints/<n: int>"` registered, `"/ints/abc"` fails with `ParameterTypeError`,
`"/ints/1"` succeeds with `{n: 1}`, and `"/ints/1/extra"` fails with
`RouteNotFound`. -/
theorem claim_C2 :
    (tryLookup (tryAdd (Except.ok Router.empty) "/ints/<n: int>" hA ["GET"])
        "/ints/abc" "GET" = Except.error PyErr.parameterTypeError
      ∧ tryLookup (tryAdd (Except.ok Router.empty) "/ints/<n: int>" hA ["GET"])
        "/ints/1" "GET" = Except.ok (some hA, [("n", PyValue.int 1)])
      ∧ tryLookup (tryAdd (Except.ok Router.empty) "/ints/<n: int>" hA ["GET"])
        "/ints/1/extra" "GET" = Except.error PyErr.routeNotFound)
    ∧ (∀ (t child : RouteTree) (key : String) (rest : List String)
        (method : String) (args a1 : HMap) (h : Option Handler) (m : HMap),
        alGet t.children key = some child →
        geths child rest (pyUpper method) args = (a1, LookupRes.found h m) →
        geths t (key :: rest) method args = (a1, LookupRes.found h m))
    ∧ (∀ (t child : RouteTree) (key : String) (rest : List String)
        (method : String) (args a1 : HMap),
        alGet t.children key = some child →
        geths child rest (pyUpper method) args
          = (a1, LookupRes.error PyErr.parameterTypeError) →
        geths t (key :: rest) method args
          = (a1, LookupRes.error PyErr.parameterTypeError))
    ∧ (∀ (t child starChild : RouteTree) (key : String) (rest : List String)
        (method : String) (args a1 a2 : HMap) (n : String) (v : PyValue)
        (h : Option Handler) (m : HMap),
        alGet t.children key = some child →
        geths child rest (pyUpper method) args
          = (a1, LookupRes.error PyErr.routeNotFound) →
        alGet t.children "*" = some starChild →
        parse_last_uri_part starChild key = Except.ok (some n, v) →
        geths starChild rest method (alSet a1 n v) = (a2, LookupRes.found h m) →
        geths t (key :: rest) method args = (a2, LookupRes.found h m)) := by
  refine ⟨⟨by decide, by decide, by decide⟩, ?_, ?_, ?_⟩
  · intro t child key rest method args a1 h m h1 h2
    simp [geths, h1, h2, fall_on_nf]
  · intro t child key rest method args a1 h1 h2
    simp [geths, h1, h2, fall_on_nf]
  · intro t child starChild key rest method args a1 a2 n v h m h1 h2 h3 h4 h5
    simp [geths, h1, h2, h3, h4, h5, fall_on_nf]

/-- Witness for the universally quantified parts of claim C2, at the concrete tree
`fbRoot`: the literal `k` branch dead-ends with `RouteNotFound` for the path
`k/z`, and the lookup falls back to the `*` child, binding `n = "k"`. -/
theorem claim_C2_witness :
    geths fbRoot ["k", "z"] "GET" []
    = ([("n", PyValue.str "k")],
       LookupRes.found (some hA) [("n", PyValue.str "k")]) :=
  claim_C2.2.2.2 fbRoot fbLeafK fbStar "k" ["z"] "GET" [] []
    [("n", PyValue.str "k")] "n" (PyValue.str "k") (some hA)
    [("n", PyValue.str "k")] rfl (by decide) rfl (by decide) (by decide)

theorem register_all_tree (ms : List Middleware) :
    ∀ r : Router, (r.register_all ms).tree = r.tree := by
  induction ms with
  | nil => intro r; rfl
  | cons m rest ih =>
    intro r
    show ((r.register_middleware m).register_all rest).tree = r.tree
    rw [ih]
    rfl

theorem register_all_middleware (ms : List Middleware) :
    ∀ r : Router, (r.register_all ms).middleware = ms.reverse ++ r.middleware := by
  induction ms with
  | nil => intro r; simp [Router.register_all]
  | cons m rest ih =>
    intro r
    show ((r.register_middleware m).register_all rest).middleware = _
    rw [ih]
    simp [Router.register_middleware]

/-- Claim C5: for middleware registered in order `m1, ..., mk`, each dispatch
builds the chain with the parameter-bound handler innermost and the
first-registered middleware outermost:
`m1(next = m2(next = ... (next = bound)))` — i.e. the reverse of the internal
storage order, equal to a right fold of the registration order. -/
theorem claim_C5 (base : Router) (ms : List Middleware) (path method : String)
    (hh : Handler) (args : HMap)
    (hmw : base.middleware = [])
    (hlk : (base.register_all ms).handler_and_args_for path method
      = Except.ok (some hh, args)) :
    (base.register_all ms).dispatch_chain path method
      = Except.ok (ms.foldr Chain.wrap (Chain.bound hh args)) := by
  unfold Router.dispatch_chain
  rw [hlk]
  show Except.ok (build_chain (base.register_all ms).middleware (Chain.bound hh args)) = _
  rw [register_all_middleware, hmw]
  unfold build_chain
  rw [List.append_nil, List.foldl_reverse]

/-- Witness for claim C5: three middleware registered in order `mw1, mw2,
mw3` around the root route of `rRoot` produce the chain
`mw1(mw2(mw3(bound hA)))`. -/
theorem claim_C5_witness :
    (rRoot.register_all [mw1, mw2, mw3]).dispatch_chain "/" "GET"
    = Except.ok (Chain.wrap mw1 (Chain.wrap mw2 (Chain.wrap mw3
        (Chain.bound hA [])))) :=
  claim_C5 rRoot [mw1, mw2, mw3] "/" "GET" hA [] rfl (by decide)

theorem ensure_child_star_fields (t : RouteTree) (key : String)
    (sn st : Option String) (t1 : RouteTree)
    (h : ensure_child t key sn st = Except.ok t1) :
    t1.star_name = t.star_name ∧ t1.star_type = t.star_type := by
  unfold ensure_child at h
  split at h
  · injection h with h1
    subst h1
    exact ⟨rfl, rfl⟩
  · unfold add_child at h
    cases hmk : mkRouteTree (pyRstripChar '/' t.pfx ++ "/" ++ key) sn st with
    | error e => rw [hmk] at h; exact absurd h (by simp)
    | ok child =>
      rw [hmk] at h
      simp only [Except.ok.injEq] at h
      subst h
      simp

theorem add_handler_star_fields (parts : List String) (t : RouteTree)
    (h : Handler) (ms ppn : List String) (astars : Bool) (t2 : RouteTree)
    (u : Updates) (hok : add_handler t parts h ms ppn astars = Except.ok (t2, u)) :
    t2.star_name = t.star_name ∧ t2.star_type = t.star_type := by
  cases parts with
  | nil =>
    simp only [add_handler] at hok
    split at hok
    · exact absurd hok (by simp)
    · cases ham : add_methods h t.methods ms [] with
      | error e => rw [ham] at hok; exact absurd hok (by simp)
      | ok pr =>
        obtain ⟨tm, upd⟩ := pr
        rw [ham] at hok
        simp only [Except.ok.injEq, Prod.mk.injEq] at hok
        obtain ⟨ht2, hu⟩ := hok
        subst ht2
        simp
  | cons key rest =>
    simp only [add_handler] at hok
    split at hok
    · exact absurd hok (by simp)
    · cases hsa : get_star_attrs key ppn with
      | error e => rw [hsa] at hok; exact absurd hok (by simp)
      | ok trip =>
        obtain ⟨sn, st, ppn2⟩ := trip
        rw [hsa] at hok
        simp only at hok
        split at hok
        · exact absurd hok (by simp)
        · cases hec : ensure_child t (if sn.isSome then "*" else key) sn st with
          | error e => rw [hec] at hok; exact absurd hok (by simp)
          | ok t1 =>
            rw [hec] at hok
            simp only at hok
            cases hch : alGet t1.children (if sn.isSome then "*" else key) with
            | none => rw [hch] at hok; exact absurd hok (by simp)
            | some child =>
              rw [hch] at hok
              simp only at hok
              split at hok
              · exact absurd hok (by simp)
              · split at hok
                · exact absurd hok (by simp)
                · cases hrec : add_handler child rest h ms ppn2 astars with
                  | error e => rw [hrec] at hok; exact absurd hok (by simp)
                  | ok pr2 =>
                    obtain ⟨child2, u0⟩ := pr2
                    rw [hrec] at hok
                    simp only [Except.ok.injEq, Prod.mk.injEq] at hok
                    obtain ⟨ht2, hu⟩ := hok
                    subst ht2
                    have hef := ensure_child_star_fields t _ sn st t1 hec
                    simp [hef.1, hef.2]

theorem add_handler_conflict (parts : List String) : ∀ (t : RouteTree)
    (ppn : List String) (h1 h2 : Handler) (v : String) (t2 : RouteTree)
    (u : Updates),
    add_handler t parts h1 [v] ppn true = Except.ok (t2, u) →
    add_handler t2 parts h2 [v] ppn true = Except.error PyErr.conflictingRoutes := by
  induction parts with
  | nil =>
    intro t ppn h1 h2 v t2 u hok
    simp only [add_handler, add_methods] at hok ⊢
    rw [if_neg (by simp : ¬([v] : List String) = [])] at hok ⊢
    cases hget : alGet t.methods (pyUpper v) with
    | some h0 => rw [hget] at hok; exact absurd hok (by simp)
    | none =>
      rw [hget] at hok
      simp only [Except.ok.injEq, Prod.mk.injEq] at hok
      obtain ⟨ht2, hu⟩ := hok
      subst ht2
      rw [RouteTree.methods_withMethods, alGet_alSet_self]
  | cons key rest ih =>
    intro t ppn h1 h2 v t2 u hok
    simp only [add_handler] at hok ⊢
    rw [if_neg (by simp : ¬([v] : List String) = [])] at hok ⊢
    cases hsa : get_star_attrs key ppn with
    | error e => rw [hsa] at hok; exact absurd hok (by simp)
    | ok trip =>
      obtain ⟨sn, st, ppn2⟩ := trip
      rw [hsa] at hok
      simp only at hok ⊢
      rw [if_neg (by simp : ¬(sn.isSome = true ∧ true = false))] at hok ⊢
      cases hec : ensure_child t (if sn.isSome then "*" else key) sn st with
      | error e => rw [hec] at hok; exact absurd hok (by simp)
      | ok t1 =>
        rw [hec] at hok
        simp only at hok
        cases hch : alGet t1.children (if sn.isSome then "*" else key) with
        | none => rw [hch] at hok; exact absurd hok (by simp)
        | some child =>
          rw [hch] at hok
          simp only at hok
          split at hok
          · exact absurd hok (by simp)
          · next hg1 =>
            split at hok
            · exact absurd hok (by simp)
            · next hg2 =>
              cases hrec : add_handler child rest h1 [v] ppn2 true with
              | error e => rw [hrec] at hok; exact absurd hok (by simp)
              | ok pr2 =>
                obtain ⟨child2, u0⟩ := pr2
                rw [hrec] at hok
                simp only [Except.ok.injEq, Prod.mk.injEq] at hok
                obtain ⟨ht2, hu⟩ := hok
                subst ht2
                have hstar := add_handler_star_fields rest child h1 [v] ppn2
                  true child2 u0 hrec
                have hens : ensure_child
                    (t1.withChildren (alSet t1.children
                      (if sn.isSome then "*" else key) child2))
                    (if sn.isSome then "*" else key) sn st
                    = Except.ok (t1.withChildren (alSet t1.children
                      (if sn.isSome then "*" else key) child2)) := by
                  unfold ensure_child
                  rw [RouteTree.children_withChildren, alGet_alSet_self]
                rw [hens]
                simp only
                rw [RouteTree.children_withChildren, alGet_alSet_self]
                simp only
                rw [if_neg (show ¬(sn ≠ child2.star_name) by
                  rw [hstar.1]; exact hg1)]
                rw [if_neg (show ¬(st ≠ child2.star_type) by
                  rw [hstar.2]; exact hg2)]
                rw [ih child ppn2 h1 h2 v child2 u0 hrec]

theorem add_handler_no_methods (t : RouteTree) (l : List String) (h : Handler)
    (ppn : List String) (astars : Bool) :
    add_handler t l h [] ppn astars = Except.error PyErr.valueError := by
  cases l <;> simp [add_handler]

/-- Claim C6: re-registering a (path, verb) pair that already has a handler
fails with `ConflictingRoutes` (leaving the first registration in place);
registering two different verbs at the same path succeeds; registering with
an empty verbs collection fails with the `ValueError`-class error. -/
theorem claim_C6 :
    (∀ (r r1 : Router) (p : String) (h1 h2 : Handler) (v : String),
        r.add_route p h1 [v] = Except.ok r1 →
        r1.add_route p h2 [v] = Except.error PyErr.conflictingRoutes)
    ∧ (tryLookup (tryAdd (tryAdd (Except.ok Router.empty) "/x" hA ["GET"])
          "/x" hB ["POST"]) "/x" "GET" = Except.ok (some hA, [])
      ∧ tryLookup (tryAdd (tryAdd (Except.ok Router.empty) "/x" hA ["GET"])
          "/x" hB ["POST"]) "/x" "POST" = Except.ok (some hB, []))
    ∧ (∀ (r : Router) (p : String) (h : Handler),
        r.add_route p h [] = Except.error PyErr.valueError) := by
  refine ⟨?_, ⟨by decide, by decide⟩, ?_⟩
  · intro r r1 p h1 h2 v hok
    unfold Router.add_route at hok ⊢
    cases hah : add_handler r.tree (make_uri_parts p) h1 [v] [] true with
    | error e => rw [hah] at hok; exact absurd hok (by simp)
    | ok pr =>
      obtain ⟨t, upd⟩ := pr
      rw [hah] at hok
      simp only [Except.ok.injEq] at hok
      subst hok
      simp only
      rw [add_handler_conflict (make_uri_parts p) r.tree [] h1 h2 v t upd hah]
  · intro r p h
    unfold Router.add_route
    rw [add_handler_no_methods]

/-- Witness for the universally quantified parts of claim C6: re-registering
`GET /x` on `rConflict` (which already holds `GET /x -> hA`) fails with
`ConflictingRoutes`, and registering with no verbs fails with the
`ValueError`-class error. -/
theorem claim_C6_witness :
    rConflict.add_route "/x" hB ["GET"] = Except.error PyErr.conflictingRoutes
    ∧ rConflict.add_route "/y" hB [] = Except.error PyErr.valueError :=
  ⟨claim_C6.1 Router.empty rConflict "/x" hA hB "GET" rfl,
   claim_C6.2.2 rConflict "/y" hB⟩

/-- Claim C7: `url_for` fails with `HandlerNameNotFound` when the
(handler name, verb) pair is not in the reverse index; it fails with
`BadHandlerParameters` whenever the missing-required set or the
extra-supplied set is non-empty; and with exactly the required parameters
supplied it returns the URL template with every placeholder substituted by
the string form of the supplied value (the `pyFormat` of the template). -/
theorem claim_C7 :
    (∀ (r : Router) (hn v : String) (args : HMap),
        alGet r.handler_to_url (hn, v) = none →
        r.url_for hn v args = Except.error PyErr.handlerNameNotFound)
    ∧ (∀ (r : Router) (hn v : String) (args : HMap) (path : String)
        (req : List String),
        alGet r.handler_to_url (hn, v) = some (path, req) → path ≠ "" →
        req.filter (fun n => ¬ n ∈ args.map Prod.fst) ≠ [] →
        r.url_for hn v args = Except.error PyErr.badHandlerParameters)
    ∧ (∀ (r : Router) (hn v : String) (args : HMap) (path : String)
        (req : List String),
        alGet r.handler_to_url (hn, v) = some (path, req) → path ≠ "" →
        (args.map Prod.fst).filter (fun n => ¬ n ∈ req) ≠ [] →
        r.url_for hn v args = Except.error PyErr.badHandlerParameters)
    ∧ (∀ (r : Router) (hn v : String) (args : HMap) (path : String)
        (req : List String) (s : List Char),
        alGet r.handler_to_url (hn, v) = some (path, req) → path ≠ "" →
        req.filter (fun n => ¬ n ∈ args.map Prod.fst) = [] →
        (args.map Prod.fst).filter (fun n => ¬ n ∈ req) = [] →
        pyFormat args path.toList = some s →
        r.url_for hn v args = Except.ok (String.mk s)) := by
  refine ⟨?_, ?_, ?_, ?_⟩
  · intro r hn v args h
    simp [Router.url_for, h]
  · intro r hn v args path req halp hpath hmiss
    simp only [Router.url_for, halp, Option.getD_some]
    rw [if_neg hpath]
    rw [if_pos ⟨fun h0 => hmiss (by rw [h0]; rfl), hmiss⟩]
  · intro r hn v args path req halp hpath hextra
    simp only [Router.url_for, halp, Option.getD_some]
    rw [if_neg hpath]
    by_cases hc : req ≠ [] ∧ req.filter (fun n => ¬ n ∈ args.map Prod.fst) ≠ []
    · rw [if_pos hc]
    · rw [if_neg hc, if_pos hextra]
  · intro r hn v args path req s halp hpath hmiss hextra hfmt
    simp only [Router.url_for, halp, Option.getD_some]
    rw [if_neg hpath]
    rw [if_neg (show ¬(req ≠ [] ∧
        req.filter (fun n => ¬ n ∈ args.map Prod.fst) ≠ []) from
      fun hc => hc.2 hmiss)]
    rw [if_neg (show ¬((args.map Prod.fst).filter (fun n => ¬ n ∈ req) ≠ [])
      from fun hx => hx hextra)]
    rw [hfmt]

/-- Witness for claim C7 at the concrete router `rUrl` (route
`GET /u/<a: int>/<b>`): unknown handler name, a missing parameter, an extra
parameter, and a fully substituted success. -/
theorem claim_C7_witness :
    rUrl.url_for "nope" "GET" [] = Except.error PyErr.handlerNameNotFound
    ∧ rUrl.url_for "hA" "GET" [("a", PyValue.int 5)]
        = Except.error PyErr.badHandlerParameters
    ∧ rUrl.url_for "hA" "GET"
        [("a", PyValue.int 5), ("b", PyValue.str "x"), ("c", PyValue.str "y")]
        = Except.error PyErr.badHandlerParameters
    ∧ rUrl.url_for "hA" "GET" [("a", PyValue.int 5), ("b", PyValue.str "x")]
        = Except.ok "/u/5/x" :=
  ⟨claim_C7.1 rUrl "nope" "GET" [] (by decide),
   claim_C7.2.1 rUrl "hA" "GET" [("a", PyValue.int 5)]
     "/u/\x7ba\x7d/\x7bb\x7d" ["b", "a"] (by decide) (by decide) (by decide),
   claim_C7.2.2.1 rUrl "hA" "GET"
     [("a", PyValue.int 5), ("b", PyValue.str "x"), ("c", PyValue.str "y")]
     "/u/\x7ba\x7d/\x7bb\x7d" ["b", "a"] (by decide) (by decide) (by decide),
   claim_C7.2.2.2 rUrl "hA" "GET" [("a", PyValue.int 5), ("b", PyValue.str "x")]
     "/u/\x7ba\x7d/\x7bb\x7d" ["b", "a"] ("/u/5/x".toList)
     (by decide) (by decide) (by decide) (by decide) (by decide)⟩

/-- Claim C8: after a parent with a handler at `/` attaches a sub-router that
has its own handler at `/` under base path `/foo`, looking up `/foo/` on the
parent reaches the root handler of the sub-router while `/` still reaches
the handler of the parent; and the rewrite performed before merging keeps
the empty stored path of the attached sub-tree root empty, so the root route
is not double-prefixed. -/
theorem claim_C8 :
    (tryLookup (tryAttach (tryAdd (Except.ok Router.empty) "/" hA ["GET"])
        (tryAdd (Except.ok Router.empty) "/" hB ["GET"]) "/foo") "/foo/" "GET"
      = Except.ok (some hB, [])
    ∧ tryLookup (tryAttach (tryAdd (Except.ok Router.empty) "/" hA ["GET"])
        (tryAdd (Except.ok Router.empty) "/" hB ["GET"]) "/foo") "/" "GET"
      = Except.ok (some hA, []))
    ∧ (∀ (t : RouteTree) (newp : String),
        t.pfx = "" → (reset_pfx t newp).pfx = "") := by
  refine ⟨⟨by decide, by decide⟩, ?_⟩
  intro t newp h
  cases t with
  | node p ch ms sn st =>
    simp only [RouteTree.pfx_node] at h
    subst h
    simp [reset_pfx]

/-- Witness for the universally quantified part of claim C8: the root of the
tree of a fresh router keeps its empty stored path under a rewrite to
`/foo`. -/
theorem claim_C8_witness :
    (reset_pfx (RouteTree.node "" [] [] none none) "/foo").pfx = "" :=
  claim_C8.2 (RouteTree.node "" [] [] none none) "/foo" rfl
